import Mathlib

/-!
Verification of `client-py/casperlabs_client/commands/show_deploys_cmd.py`.

The module defines the CLI metadata `NAME`, `HELP`, `OPTIONS` and one
command function `method`, decorated with `guarded_command`.  The body of
`method` issues one call `casperlabs_client.showDeploys(args.hash,
full_view=False)` and forwards the response to
`_print_blocks(response, element_name="deploy")`.

We embed the command body as a function from an abstract client capability
(a function that may fail, giving `Except E R`) to a trace of collaborator
calls together with the outcome of the body.  Effects are modelled as the
list of outbound collaborator invocations, in order.
-/

/-- Parsed-arguments object: the command body only reads `args.hash`. -/
structure Args where
  hash : String
deriving DecidableEq, Repr

/-- One outbound collaborator invocation performed by the command body:
either the client capability call `showDeploys(hash, full_view)` or the
rendering call `_print_blocks(response, element_name)`. -/
inductive Event (R : Type) where
  | showDeploys (hash : String) (full_view : Bool)
  | print_blocks (response : R) (element_name : String)
deriving DecidableEq, Repr

/-- Returns true on the client-capability call event. -/
def isShowDeploysEvent {R : Type} : Event R → Bool
  | Event.showDeploys _ _ => true
  | Event.print_blocks _ _ => false

/-- Returns true on the rendering-collaborator call event. -/
def isPrintBlocksEvent {R : Type} : Event R → Bool
  | Event.showDeploys _ _ => false
  | Event.print_blocks _ _ => true

/-- The body of `method` (src lines 9-11, before the `guarded_command`
decorator is applied):

    response = casperlabs_client.showDeploys(args.hash, full_view=False)
    _print_blocks(response, element_name="deploy")

The client capability is abstract: any function from the hash string and the
`full_view` flag to either an exception `E` or a response `R`.  The result is
the ordered trace of collaborator calls, paired with the body's outcome:
`Except.error e` when the client call raised `e` (the body has no handler, so
the rendering call is never reached), `Except.ok ()` on normal completion
(Python `None`). -/
def method_body {E R : Type} (casperlabs_client : String → Bool → Except E R)
    (args : Args) : List (Event R) × Except E Unit :=
  match casperlabs_client args.hash false with
  | Except.error e => ([Event.showDeploys args.hash false], Except.error e)
  | Except.ok response =>
      ([Event.showDeploys args.hash false,
        Event.print_blocks response "deploy"], Except.ok ())

/-- Result of running a command under the guard wrapper: the trace of the
body's collaborator calls, the formatted error (if the body raised), and the
process exit code. -/
structure GuardedOutcome (E R : Type) where
  trace : List (Event R)
  errorOutput : Option E
  exitCode : Nat
deriving DecidableEq, Repr

/-- Modelled from the spec: `guarded_command` lives in
`casperlabs_client/utils.py`, which is not under src/.  Per the spec it is a
decorator that "intercepts exceptions raised during command execution and
converts them into user-facing CLI error output plus a process exit code";
a normal completion passes through with exit code 0. -/
def guarded_command {E R : Type}
    (f : (String → Bool → Except E R) → Args → List (Event R) × Except E Unit)
    (casperlabs_client : String → Bool → Except E R) (args : Args) :
    GuardedOutcome E R :=
  match f casperlabs_client args with
  | (t, Except.ok _) => ⟨t, none, 0⟩
  | (t, Except.error e) => ⟨t, some e, 1⟩

/-- The exported `method` of the module: the source decorates the body with
`@guarded_command` at its definition (src line 8). -/
def method {E R : Type} (casperlabs_client : String → Bool → Except E R)
    (args : Args) : GuardedOutcome E R :=
  guarded_command method_body casperlabs_client args

/-- Registered command name (src line 3). -/
def NAME : String := "show-deploys"

/-- Registered help text (src line 4). -/
def HELP : String := "View deploys included in a block."

/-- The Python `type=` value of an option declaration; only `str` occurs. -/
inductive PyType where
  | str
deriving DecidableEq, Repr

/-- One entry of the `OPTIONS` schema: the positional name-tuple passed to
the argument parser, and the keyword dictionary (`type`, `required`, `help`;
a key absent from the source dict is `none`). -/
structure OptDecl where
  names : List String
  type : Option PyType
  required : Option Bool
  help : Option String
deriving DecidableEq, Repr

/-- The option schema (src line 5):
`OPTIONS = [[("hash",), dict(type=str, help="Value of the block hash, base16 encoded.")]]`. -/
def OPTIONS : List OptDecl :=
  [⟨["hash"], some PyType.str, none,
    some "Value of the block hash, base16 encoded."⟩]

/-- A client capability that always succeeds with response 42, used to
instantiate universally quantified theorems at a concrete input. -/
def okClient : String → Bool → Except String Nat :=
  fun _ _ => Except.ok 42

/-- A client capability that always raises the exception "boom", used to
instantiate universally quantified theorems at a concrete input. -/
def errClient : String → Bool → Except String Nat :=
  fun _ _ => Except.error "boom"

/-- C1: for every client capability and every hash argument, one invocation
of the command body issues exactly one `showDeploys` call, with exactly the
arguments `(args.hash, full_view=False)`. -/
theorem C1_exactly_one_show_deploys_call {E R : Type}
    (casperlabs_client : String → Bool → Except E R) (args : Args) :
    ((method_body casperlabs_client args).1.filter isShowDeploysEvent) =
      [Event.showDeploys args.hash false] := by
  unfold method_body
  cases casperlabs_client args.hash false <;>
    simp [isShowDeploysEvent, List.filter]

/-- C2: whenever the client call returns a response `r` (including an empty
response), the command body invokes `_print_blocks` exactly once, with
exactly the response object `r` and `element_name="deploy"`; there is no
short-circuit for any response value. -/
theorem C2_render_exactly_once {E R : Type}
    (casperlabs_client : String → Bool → Except E R) (args : Args) (r : R)
    (h : casperlabs_client args.hash false = Except.ok r) :
    ((method_body casperlabs_client args).1.filter isPrintBlocksEvent) =
      [Event.print_blocks r "deploy"] := by
  unfold method_body
  rw [h]
  simp [isPrintBlocksEvent, List.filter]

/-- Witness for C2 at a concrete always-succeeding client. -/
theorem C2_render_exactly_once_witness :
    okClient (Args.mk "abc123").hash false = Except.ok 42 ∧
    ((method_body okClient (Args.mk "abc123")).1.filter isPrintBlocksEvent) =
      [Event.print_blocks 42 "deploy"] :=
  ⟨rfl, C2_render_exactly_once okClient (Args.mk "abc123") 42 rfl⟩

/-- C3: whenever the client call raises an exception `e`, the command body
does not catch it: the very same exception `e` is the outcome of the body,
propagating unchanged to its caller. -/
theorem C3_exception_propagates_unchanged {E R : Type}
    (casperlabs_client : String → Bool → Except E R) (args : Args) (e : E)
    (h : casperlabs_client args.hash false = Except.error e) :
    (method_body casperlabs_client args).2 = Except.error e := by
  unfold method_body
  rw [h]

/-- Witness for C3 at a concrete always-raising client. -/
theorem C3_exception_propagates_unchanged_witness :
    errClient (Args.mk "abc123").hash false = Except.error "boom" ∧
    (method_body errClient (Args.mk "abc123")).2 = Except.error "boom" :=
  ⟨rfl, C3_exception_propagates_unchanged errClient (Args.mk "abc123") "boom" rfl⟩

/-- C4: the command body performs no parsing, validation, or transformation
of the hash: its first (and only) client call is `showDeploys` applied to the
identical string `args.hash` with `full_view=False`, for every client and
every hash, in particular for `hash = "abc123"`. -/
theorem C4_hash_passed_verbatim {E R : Type}
    (casperlabs_client : String → Bool → Except E R) (args : Args) :
    (method_body casperlabs_client args).1.head? =
      some (Event.showDeploys args.hash false) := by
  unfold method_body
  cases casperlabs_client args.hash false <;> rfl

/-- C5: on a normal completion (client returned `r`), the side effects of the
command body are exactly one client query followed by exactly one rendering
call, and nothing else: the full effect trace is those two events in order. -/
theorem C5_exact_effect_trace {E R : Type}
    (casperlabs_client : String → Bool → Except E R) (args : Args) (r : R)
    (h : casperlabs_client args.hash false = Except.ok r) :
    (method_body casperlabs_client args).1 =
      [Event.showDeploys args.hash false, Event.print_blocks r "deploy"] := by
  unfold method_body
  rw [h]

/-- Witness for C5 at a concrete always-succeeding client. -/
theorem C5_exact_effect_trace_witness :
    okClient (Args.mk "h").hash false = Except.ok 42 ∧
    (method_body okClient (Args.mk "h")).1 =
      [Event.showDeploys "h" false, Event.print_blocks 42 "deploy"] :=
  ⟨rfl, C5_exact_effect_trace okClient (Args.mk "h") 42 rfl⟩

/-- C6 counterexample: the option schema of the source declares the
name-tuple `("hash",)` — the single name string is "hash", not "--hash" —
and passes no `required` keyword; so the claim that the schema declares a
flag named `--hash` marked required is false as stated. -/
theorem C6_counterexample :
    OPTIONS = [⟨["hash"], some PyType.str, none,
      some "Value of the block hash, base16 encoded."⟩] ∧
    (["hash"] : List String) ≠ ["--hash"] := by
  exact ⟨rfl, by decide⟩

/-- C6 amended: the option schema declares exactly one parameter, whose
declared name is the string "hash" (no dash prefix, hence a positional and
therefore mandatory argument under the external argparse-based dispatcher),
taking a string, with the description "Value of the block hash, base16
encoded.", and with no explicit `required` keyword. -/
theorem C6_option_schema :
    OPTIONS.length = 1 ∧
    OPTIONS.map OptDecl.names = [["hash"]] ∧
    OPTIONS.map OptDecl.type = [some PyType.str] ∧
    OPTIONS.map OptDecl.required = [none] ∧
    OPTIONS.map OptDecl.help =
      [some "Value of the block hash, base16 encoded."] := by
  refine ⟨rfl, rfl, rfl, rfl, rfl⟩

/-- C7 counterexample: at the concrete always-raising client, the module's
exported `method` does not propagate the exception: it completes with the
formatted error output `some "boom"` and exit code 1, while the undecorated
body's outcome at the same input is `Except.error "boom"`.  The wrapper is
therefore applied inside the component's own definition (the
`@guarded_command` decorator at src line 8), not left to the dispatcher as
the claim states. -/
theorem C7_counterexample :
    (method errClient (Args.mk "abc123")).errorOutput = some "boom" ∧
    (method errClient (Args.mk "abc123")).exitCode = 1 ∧
    (method_body errClient (Args.mk "abc123")).2 = Except.error "boom" :=
  ⟨rfl, rfl, rfl⟩

/-- C7 amended: the guard wrapper is applied by the component itself, as the
decorator on `method`'s definition: whenever the body's client call raises
`e`, the exported `method` intercepts it, reporting error output `e` and
exit code 1 instead of propagating the exception. -/
theorem C7_wrapper_applied_by_component {E R : Type}
    (casperlabs_client : String → Bool → Except E R) (args : Args) (e : E)
    (h : casperlabs_client args.hash false = Except.error e) :
    (method casperlabs_client args).errorOutput = some e ∧
    (method casperlabs_client args).exitCode = 1 := by
  unfold method guarded_command method_body
  rw [h]
  exact ⟨rfl, rfl⟩

/-- Witness for the amended C7 at a concrete always-raising client. -/
theorem C7_wrapper_applied_by_component_witness :
    errClient (Args.mk "abc123").hash false = Except.error "boom" ∧
    ((method errClient (Args.mk "abc123")).errorOutput = some "boom" ∧
      (method errClient (Args.mk "abc123")).exitCode = 1) :=
  ⟨rfl, C7_wrapper_applied_by_component errClient (Args.mk "abc123") "boom" rfl⟩

/-- C8: on a normal completion (client returned `r`), the command body
returns no value to its caller — its outcome is `Except.ok ()`, the
embedding of Python's implicit `None` — while the response `r` is forwarded
to the rendering collaborator, appearing in the effect trace rather than in
the return value. -/
theorem C8_returns_none {E R : Type}
    (casperlabs_client : String → Bool → Except E R) (args : Args) (r : R)
    (h : casperlabs_client args.hash false = Except.ok r) :
    (method_body casperlabs_client args).2 = Except.ok () ∧
    Event.print_blocks r "deploy" ∈ (method_body casperlabs_client args).1 := by
  unfold method_body
  rw [h]
  exact ⟨rfl, by simp⟩

/-- Witness for C8 at a concrete always-succeeding client. -/
theorem C8_returns_none_witness :
    okClient (Args.mk "h").hash false = Except.ok 42 ∧
    ((method_body okClient (Args.mk "h")).2 = Except.ok () ∧
      Event.print_blocks 42 "deploy" ∈ (method_body okClient (Args.mk "h")).1) :=
  ⟨rfl, C8_returns_none okClient (Args.mk "h") 42 rfl⟩

/-- C9: the registered command name is exactly "show-deploys" and the help
text is exactly "View deploys included in a block.". -/
theorem C9_name_and_help :
    NAME = "show-deploys" ∧ HELP = "View deploys included in a block." :=
  ⟨rfl, rfl⟩

/-- C10: whenever the client call raises an exception, the rendering
collaborator is never invoked: the effect trace of the command body contains
no `_print_blocks` call, because the query strictly precedes rendering and
the body stops at the raised exception. -/
theorem C10_no_render_on_error {E R : Type}
    (casperlabs_client : String → Bool → Except E R) (args : Args) (e : E)
    (h : casperlabs_client args.hash false = Except.error e) :
    ((method_body casperlabs_client args).1.filter isPrintBlocksEvent) = [] := by
  unfold method_body
  rw [h]
  simp [isPrintBlocksEvent, List.filter]

/-- Witness for C10 at a concrete always-raising client. -/
theorem C10_no_render_on_error_witness :
    errClient (Args.mk "h").hash false = Except.error "boom" ∧
    ((method_body errClient (Args.mk "h")).1.filter isPrintBlocksEvent) = [] :=
  ⟨rfl, C10_no_render_on_error errClient (Args.mk "h") "boom" rfl⟩
